import Mathlib

/-!
Shallow embedding of the `my_little_sniper` NFT sniping bot
(`src/bot/telegram_bot.py`, `src/bot/opensea_monitor.py`, `src/utils/config.py`)
together with theorems settling the specification claims.

Python `Decimal` values are modelled as `ℚ`; Python `int` as `ℤ`.
Telegram replies are modelled as structured `Resp` constructors, each standing
for one literal message string of the source.
-/

namespace Sniper

/-- Python exception classes relevant to the embedded handlers.
`invalidOperation` models `decimal.InvalidOperation`, which subclasses
`ArithmeticError`, not `ValueError`. -/
inductive PyExc where
  | indexError
  | valueError
  | invalidOperation
  | other (msg : String)
deriving DecidableEq, Repr

/-- A marketplace listing as consumed by the bot:
`listing['asset']['token_id']`, `listing['price']['amount']`,
`listing['protocol_address']`, `listing['protocol_data']`. -/
structure Listing where
  tokenId : String
  priceAmount : ℚ
  protocolAddress : String
  protocolData : String
deriving DecidableEq, Repr

/-- A match notification sent by `monitor_listings`: the message text contains
the token id, the listing price and the floor price (plus a link and a
`/buy_<tokenId>` purchase hint derived from the token id). -/
structure Notification where
  tokenId : String
  price : ℚ
  floorPrice : ℚ
deriving DecidableEq, Repr

/-- `self.task : Optional[asyncio.Task]`.  `noTask` is `None`; `live` is a
task whose poll cycle is still running; `cancelled` is a task object on which
`cancel()` has been called (still truthy in Python). -/
inductive TaskState where
  | noTask
  | live
  | cancelled
deriving DecidableEq, Repr

/-- The mutable fields of `NFTSniperBot`.  `liveCycles` instruments the number
of concurrently live poll cycles (the spec's "counting concurrent entries");
it is not a Python field but is derived from task creation/cancellation. -/
structure BotState where
  is_running : Bool
  task : TaskState
  liveCycles : ℕ
  max_price_multiplier : ℚ
  check_interval : ℤ
deriving DecidableEq, Repr

/-- Structured stand-ins for the literal reply strings of the handlers. -/
inductive Resp where
  | notAuthorized
  | welcomeMenu
  | monitoringStarted
  | alreadyRunning
  | monitoringStopped
  | notRunning
  | floorPriceReport (floor maxPrice : ℚ)
  | couldNotFetchFloor
  | settingsReport (mult : ℚ) (interval : ℤ)
  | multiplierRange
  | multiplierSet (v : ℚ)
  | multiplierParseError
  | intervalRange
  | intervalSet (s : ℤ)
  | intervalParseError
  | listingNotFound
  | attemptingPurchase
  | purchaseSuccess (tokenId txHash : String)
  | purchaseFailed
deriving DecidableEq, Repr

/-! ### Python numeric-string parsing (`Decimal(s)`, `int(s)`, `float(s)`) -/

def isDig (c : Char) : Bool := ('0' ≤ c) && (c ≤ '9')

def digitsVal (cs : List Char) : ℕ :=
  cs.foldl (fun a c => 10 * a + (c.toNat - 48)) 0

/-- A nonempty all-digit character run, or `none`. -/
def readNat (cs : List Char) : Option ℕ :=
  if !cs.isEmpty && cs.all isDig then some (digitsVal cs) else none

def stripSign : List Char → Bool × List Char
  | '-' :: rest => (true, rest)
  | '+' :: rest => (false, rest)
  | cs => (false, cs)

def splitOnCharAux (sep : Char) (cur : List Char) : List Char → List (List Char)
  | [] => [cur.reverse]
  | c :: rest =>
    if c = sep then cur.reverse :: splitOnCharAux sep [] rest
    else splitOnCharAux sep (c :: cur) rest

/-- Python `str.split(sep)` for a single-character separator
(`''.split(',') == ['']`). -/
def splitOnChar (sep : Char) (cs : List Char) : List (List Char) :=
  splitOnCharAux sep [] cs

/-- Unsigned decimal literal `digits [. digits]` (at least one digit overall).
Exponent, `NaN`/`Infinity`, whitespace and underscore forms accepted by
Python are not modelled; no claim depends on them. -/
def readDecCore (cs : List Char) : Option ℚ :=
  match splitOnChar '.' cs with
  | [ip] => (readNat ip).map (fun n => (n : ℚ))
  | [ip, fp] =>
    if (!ip.isEmpty || !fp.isEmpty) && ip.all isDig && fp.all isDig then
      some ((digitsVal ip : ℚ) + (digitsVal fp : ℚ) / ((10 : ℚ) ^ fp.length))
    else none
  | _ => none

def readSignedDec (s : String) : Option ℚ :=
  let p := stripSign s.toList
  (readDecCore p.2).map (fun q => if p.1 then -q else q)

/-- Python `Decimal(s)`: on a malformed literal it raises
`decimal.InvalidOperation` — an `ArithmeticError`, not a `ValueError`. -/
def pyDecimal (s : String) : Except PyExc ℚ :=
  match readSignedDec s with
  | some q => .ok q
  | none => .error .invalidOperation

/-- Python `int(s)`: on a malformed literal it raises `ValueError`. -/
def pyInt (s : String) : Except PyExc ℤ :=
  match readNat (stripSign s.toList).2 with
  | some n => .ok (if (stripSign s.toList).1 then -(n : ℤ) else (n : ℤ))
  | none => .error .valueError

/-- Python `float(s)`: on a malformed literal it raises `ValueError`. -/
def pyFloat (s : String) : Except PyExc ℚ :=
  match readSignedDec s with
  | some q => .ok q
  | none => .error .valueError

/-- Python truthiness of an `Optional[Decimal]`: `None` is falsy and so is
`Decimal(0)`.  This is the test `if not floor_price:` / `if floor_price:`
of `monitor_listings` and of the `floor_price` button. -/
def decimalTruthy : Option ℚ → Bool
  | none => false
  | some q => decide (q ≠ 0)

/-! ### The poll-cycle scan (`monitor_listings`, lines 161-185) -/

/-- Result of scanning one fetched batch: the token ids passed to
`has_accessories` (the trait predicate), and the notifications sent. -/
structure ScanOut where
  queries : List String
  notifs : List Notification
deriving DecidableEq, Repr

def mkNotif (floorPrice : ℚ) (l : Listing) : Notification :=
  ⟨l.tokenId, l.priceAmount, floorPrice⟩

/-- The `for listing in listings` loop.  `w k` is the value of
`self.is_running` observed at the `k`-th loop step; `acc` is the outcome of
`has_accessories`.  The `elif price > max_price` branch executes `break`. -/
def scanListings (w : ℕ → Bool) (k : ℕ) (maxPrice floorPrice : ℚ)
    (acc : String → Bool) : List Listing → ScanOut
  | [] => ⟨[], []⟩
  | l :: rest =>
    if w k = false then ⟨[], []⟩
    else if l.priceAmount ≤ maxPrice then
      let r := scanListings w (k + 1) maxPrice floorPrice acc rest
      ⟨l.tokenId :: r.queries,
        (if acc l.tokenId then [mkNotif floorPrice l] else []) ++ r.notifs⟩
    else ⟨[], []⟩

/-- A run flag that never observes a concurrent stop. -/
def alwaysRun : ℕ → Bool := fun _ => true

/-- One poll iteration's fetch-and-scan (lines 153-185): `listingsFetched`
records whether `get_listings` was reached.  A falsy floor price
(fetch failure, or `Decimal(0)`) skips straight to the sleep. -/
structure IterOut where
  listingsFetched : Bool
  scan : ScanOut
deriving DecidableEq, Repr

def pollIteration (mult : ℚ) (w : ℕ → Bool) (floorResult : Option ℚ)
    (listings : List Listing) (acc : String → Bool) : IterOut :=
  if decimalTruthy floorResult then
    let fp := floorResult.getD 0
    ⟨true, scanListings w 0 (fp * mult) fp acc listings⟩
  else ⟨false, ⟨[], []⟩⟩

/-! ### The while-loop of `monitor_listings` (lines 151-193) -/

/-- Environment for one iteration: the outcomes of the boundary calls, plus
whether an `asyncio.CancelledError` is delivered during the iteration
(`cancelSignal`) or some other unexpected exception is raised inside the
`try` block (`injectedExc`, e.g. a malformed listing or a failed send). -/
structure IterEnv where
  floorResult : Option ℚ
  listings : List Listing
  hasAcc : String → Bool
  cancelSignal : Bool
  injectedExc : Option PyExc

/-- Outcome of the `try` block of one iteration. -/
inductive IterBody where
  | ok (out : IterOut)
  | cancelled
  | exc (e : PyExc)

def runBody (mult : ℚ) (env : IterEnv) : IterBody :=
  if env.cancelSignal then .cancelled
  else
    match env.injectedExc with
    | some e => .exc e
    | none => .ok (pollIteration mult alwaysRun env.floorResult env.listings env.hasAcc)

def bodyNotifs : IterBody → List Notification
  | .ok out => out.scan.notifs
  | _ => []

def bodyCancelled : IterBody → Bool
  | .cancelled => true
  | _ => false

/-- The `while self.is_running` loop over a finite script of iteration
environments.  `except asyncio.CancelledError: break` exits without sleeping;
`except Exception: logger.error(...)` falls through to the sleep and the next
iteration.  Returns the number of completed iterations (each followed by one
`asyncio.sleep`) and all notifications sent. -/
def monitorLoop (mult : ℚ) : List IterEnv → ℕ × List Notification
  | [] => (0, [])
  | env :: rest =>
    if bodyCancelled (runBody mult env) then (0, [])
    else
      ((monitorLoop mult rest).1 + 1,
        bodyNotifs (runBody mult env) ++ (monitorLoop mult rest).2)

/-! ### Command handlers (`telegram_bot.py`) -/

/-- Outcome of a text-command handler: the bot's state afterwards, the
replies sent, and an exception escaping the handler uncaught, if any. -/
structure HandlerOut where
  state : BotState
  replies : List Resp
  uncaught : Option PyExc
deriving DecidableEq, Repr

/-- The `start_monitor` button branch (lines 61-71):
`if not self.is_running:` launch a new poll task, else warn. -/
def startMonitor (st : BotState) : BotState × Resp :=
  if st.is_running = false then
    ({st with is_running := true, task := .live, liveCycles := st.liveCycles + 1},
      .monitoringStarted)
  else (st, .alreadyRunning)

/-- The `stop_monitor` button branch (lines 73-79):
`if self.is_running and self.task:` cancel, else warn.  Cancelling ends the
single live cycle at its next suspension point; the task object remains
stored (and truthy). -/
def stopMonitor (st : BotState) : BotState × Resp :=
  if st.is_running = true ∧ st.task ≠ TaskState.noTask then
    ({st with is_running := false, task := .cancelled, liveCycles := st.liveCycles - 1},
      .monitoringStopped)
  else (st, .notRunning)

/-- The `floor_price` button branch (lines 81-92): `if floor_price:` is the
Python truthiness test, so `None` and `Decimal(0)` both report the
fetch-failure message. -/
def floorPriceResp (mult : ℚ) (floorResult : Option ℚ) : Resp :=
  if decimalTruthy floorResult then
    .floorPriceReport (floorResult.getD 0) (floorResult.getD 0 * mult)
  else .couldNotFetchFloor

/-- `button_handler` (lines 56-103).  The source handler reads only
`query.data` and the bot state: it never consults `update.effective_user`
or `Config.ALLOWED_USERS`, so `userId` and `allowed` are unused. -/
def buttonHandler (userId : ℤ) (allowed : List ℤ) (data : String)
    (st : BotState) (floorResult : Option ℚ) : BotState × List Resp :=
  if data = "start_monitor" then ((startMonitor st).1, [(startMonitor st).2])
  else if data = "stop_monitor" then ((stopMonitor st).1, [(stopMonitor st).2])
  else if data = "floor_price" then
    (st, [floorPriceResp st.max_price_multiplier floorResult])
  else if data = "settings" then
    (st, [.settingsReport st.max_price_multiplier st.check_interval])
  else (st, [])

/-- The `/start` command handler (lines 32-54): the only handler that replies
to an unauthorized caller. -/
def startCommand (allowed : List ℤ) (userId : ℤ) (st : BotState) :
    BotState × List Resp :=
  if userId ∉ allowed then (st, [.notAuthorized])
  else (st, [.welcomeMenu])

/-- `except (IndexError, ValueError)` of `set_multiplier`/`set_interval`. -/
def caughtBySetHandlers (e : PyExc) : Bool :=
  e = .indexError || e = .valueError

/-- `/set_multiplier` (lines 105-125).  An unauthorized caller gets a bare
`return` — no reply.  A missing argument raises `IndexError` (caught); a
malformed number makes `Decimal(...)` raise `decimal.InvalidOperation`,
which the `except (IndexError, ValueError)` clause does not catch, so it
escapes the handler before any reply and after no mutation. -/
def set_multiplier (allowed : List ℤ) (userId : ℤ) (args : List String)
    (st : BotState) : HandlerOut :=
  if userId ∉ allowed then ⟨st, [], none⟩
  else
    match args.head? with
    | none => ⟨st, [.multiplierParseError], none⟩
    | some a =>
      match pyDecimal a with
      | .error e =>
        if caughtBySetHandlers e then ⟨st, [.multiplierParseError], none⟩
        else ⟨st, [], some e⟩
      | .ok v =>
        if v ≤ 0 ∨ v > 2 then ⟨st, [.multiplierRange], none⟩
        else ⟨{st with max_price_multiplier := v}, [.multiplierSet v], none⟩

/-- `/set_interval` (lines 127-147).  `int(...)` raises `ValueError` on a
malformed number, which the `except` clause does catch. -/
def set_interval (allowed : List ℤ) (userId : ℤ) (args : List String)
    (st : BotState) : HandlerOut :=
  if userId ∉ allowed then ⟨st, [], none⟩
  else
    match args.head? with
    | none => ⟨st, [.intervalParseError], none⟩
    | some a =>
      match pyInt a with
      | .error e =>
        if caughtBySetHandlers e then ⟨st, [.intervalParseError], none⟩
        else ⟨st, [], some e⟩
      | .ok v =>
        if v < 30 ∨ v > 3600 then ⟨st, [.intervalRange], none⟩
        else ⟨{st with check_interval := v}, [.intervalSet v], none⟩

/-- `buy_command` (lines 195-232).  `buyResult l` is the outcome of
`buy_nft l` (`some txHash` on a confirmed receipt, `none` on failure).
The second component lists the listings on which a purchase was attempted.
An unauthorized caller gets a bare `return` — no reply, no purchase. -/
def buyCommand (allowed : List ℤ) (userId : ℤ) (text : String)
    (listings : List Listing) (buyResult : Listing → Option String)
    (st : BotState) : HandlerOut × List Listing :=
  if userId ∉ allowed then (⟨st, [], none⟩, [])
  else if !(text.startsWith "/buy_") then (⟨st, [], none⟩, [])
  else
    let tokenId := text.drop 5
    match listings.find? (fun l => l.tokenId == tokenId) with
    | none => (⟨st, [.listingNotFound], none⟩, [])
    | some l =>
      match buyResult l with
      | some txHash => (⟨st, [.attemptingPurchase, .purchaseSuccess tokenId txHash], none⟩, [l])
      | none => (⟨st, [.attemptingPurchase, .purchaseFailed], none⟩, [l])

/-! ### Reachable bot states -/

/-- States reachable from a fresh `NFTSniperBot` (any configured defaults)
through the command handlers. -/
inductive Reachable : BotState → Prop where
  | init (m : ℚ) (i : ℤ) : Reachable ⟨false, .noTask, 0, m, i⟩
  | button (st : BotState) (u : ℤ) (al : List ℤ) (d : String) (fr : Option ℚ) :
      Reachable st → Reachable (buttonHandler u al d st fr).1
  | setMult (st : BotState) (al : List ℤ) (u : ℤ) (args : List String) :
      Reachable st → Reachable (set_multiplier al u args st).state
  | setInt (st : BotState) (al : List ℤ) (u : ℤ) (args : List String) :
      Reachable st → Reachable (set_interval al u args st).state

/-! ### Config read points under interference (`monitor_listings`) -/

/-- The two tunable fields (`self.max_price_multiplier`,
`self.check_interval`). -/
structure ConfigPair where
  mult : ℚ
  interval : ℤ
deriving DecidableEq, Repr

/-- `applyW w s n c` applies the interference writes at suspension points
`s, s+1, ..., s+n-1` to `c` in order. -/
def applyW (w : ℕ → ConfigPair → ConfigPair) : ℕ → ℕ → ConfigPair → ConfigPair
  | _, 0, c => c
  | s, n + 1, c => applyW w (s + 1) n (w s c)

structure CycleOut where
  notifs : List Notification
  sleepDur : ℤ
  conf : ConfigPair
deriving DecidableEq, Repr

/-- One iteration of `monitor_listings` with concurrent configuration writes.
`w k` is the update the command handlers apply to the tunable fields during
the `k`-th `await` of the iteration (identity when no command lands there).
Await points in source order: 0 = the `get_floor_price` await, 1 = the
`get_listings` await, then one per `has_accessories` call and one per
`send_message` during the scan, and finally the inter-cycle sleep.
`self.max_price_multiplier` is read once, at line 158, i.e. after await 0;
`self.check_interval` is read when `asyncio.sleep(...)` is called, i.e.
after all scan awaits. -/
def interferedCycle (c0 : ConfigPair) (w : ℕ → ConfigPair → ConfigPair)
    (floorResult : Option ℚ) (listings : List Listing)
    (acc : String → Bool) : CycleOut :=
  let c1 := w 0 c0
  if decimalTruthy floorResult then
    let fp := floorResult.getD 0
    let maxPrice := fp * c1.mult
    let c2 := w 1 c1
    let s := scanListings alwaysRun 0 maxPrice fp acc listings
    let k := s.queries.length + s.notifs.length
    let c3 := applyW w 2 k c2
    ⟨s.notifs, c3.interval, w (2 + k) c3⟩
  else ⟨[], c1.interval, w 1 c1⟩

/-! ### Startup configuration (`src/utils/config.py`) -/

/-- The `Config` class attributes after the class body has evaluated. -/
structure ConfigData where
  OPENSEA_API_KEY : Option String
  ETH_PRIVATE_KEY : Option String
  ETHEREUM_RPC_URL : Option String
  TELEGRAM_TOKEN : Option String
  ALLOWED_USERS : List ℤ
  MAX_PRICE_MULTIPLIER : ℚ
  CHECK_INTERVAL : ℤ
deriving DecidableEq, Repr

/-- Evaluation of the `Config` class body at import time.
`ALLOWED_USERS = set(map(int, os.getenv('ALLOWED_USERS', '').split(',')))`
parses every comma-separated part with `int`; when the variable is unset
the split of `''` is `['']` and `int('')` raises `ValueError`. -/
def loadConfig (env : String → Option String) : Except PyExc ConfigData := do
  let users ← (splitOnChar ',' ((env "ALLOWED_USERS").getD "").toList).mapM
    (fun cs => pyInt (String.mk cs))
  let mult ← pyFloat ((env "MAX_PRICE_MULTIPLIER").getD "1.1")
  let interval ← pyInt ((env "CHECK_INTERVAL").getD "60")
  pure {
    OPENSEA_API_KEY := env "OPENSEA_API_KEY"
    ETH_PRIVATE_KEY := env "ETH_PRIVATE_KEY"
    ETHEREUM_RPC_URL := env "ETHEREUM_RPC_URL"
    TELEGRAM_TOKEN := env "TELEGRAM_TOKEN"
    ALLOWED_USERS := users
    MAX_PRICE_MULTIPLIER := mult
    CHECK_INTERVAL := interval }

def requiredVars : List String :=
  ["OPENSEA_API_KEY", "ETH_PRIVATE_KEY", "ETHEREUM_RPC_URL",
   "TELEGRAM_TOKEN", "ALLOWED_USERS"]

/-- Python truthiness of an `Optional[str]`: `None` and `''` are falsy. -/
def truthyStrOpt : Option String → Bool
  | none => false
  | some s => decide (s ≠ "")

/-- `not getattr(cls, var)` for each required variable; a `set` is falsy
iff empty. -/
def fieldTruthy (c : ConfigData) : String → Bool
  | "OPENSEA_API_KEY" => truthyStrOpt c.OPENSEA_API_KEY
  | "ETH_PRIVATE_KEY" => truthyStrOpt c.ETH_PRIVATE_KEY
  | "ETHEREUM_RPC_URL" => truthyStrOpt c.ETHEREUM_RPC_URL
  | "TELEGRAM_TOKEN" => truthyStrOpt c.TELEGRAM_TOKEN
  | "ALLOWED_USERS" => !c.ALLOWED_USERS.isEmpty
  | _ => true

/-- `Config.validate` (lines 24-40): the list comprehension collecting every
falsy required variable. -/
def missingVars (c : ConfigData) : List String :=
  requiredVars.filter (fun v => !fieldTruthy c v)

/-- The entry module `telegram_bot.py` fails Python tokenization: the
raw-string regex literal of the buy-command handler registration at line
249 is missing its closing quote.  Python parses a module in full before
executing any of its statements — including its imports — so this failure
precedes everything else, in every environment. -/
def entryModuleParses : Bool := false

/-- The fate of process startup.  `syntaxError` is a parse failure of the
entry module; `importError` an exception while the `Config` class body
evaluates; `validationError` the single `ValueError` of `Config.validate`,
enumerating every missing required name together. -/
inductive ProcessStart where
  | started (c : ConfigData)
  | syntaxError
  | importError (e : PyExc)
  | validationError (missing : List String)
deriving DecidableEq, Repr

/-- Process startup: Python first parses the entry module; only if that
succeeds do its imports run (evaluating the `Config` class body), and then
`run()` calls `Config.validate()` before the application is built. -/
def startup (env : String → Option String) : ProcessStart :=
  if entryModuleParses then
    match loadConfig env with
    | .error e => .importError e
    | .ok c =>
      if missingVars c ≠ [] then .validationError (missingVars c)
      else .started c
  else .syntaxError

/-! ### Scan lemmas -/

/-- When the run flag stays true and every listing of the batch is within the
ceiling, the scan queries every token and notifies exactly the trait
matches, in order. -/
theorem scanListings_all_le (w : ℕ → Bool) (maxPrice floorPrice : ℚ)
    (acc : String → Bool) :
    ∀ (xs : List Listing) (k : ℕ), (∀ n, w n = true) →
      (∀ x ∈ xs, x.priceAmount ≤ maxPrice) →
      scanListings w k maxPrice floorPrice acc xs =
        ⟨xs.map (fun l => l.tokenId),
          (xs.filter (fun l => acc l.tokenId)).map (mkNotif floorPrice)⟩ := by
  intro xs
  induction xs with
  | nil => intro k _ _; rfl
  | cons l rest ih =>
    intro k hrun hall
    have hl : l.priceAmount ≤ maxPrice := hall l (List.mem_cons_self l rest)
    have hrest : ∀ x ∈ rest, x.priceAmount ≤ maxPrice :=
      fun x hx => hall x (List.mem_cons_of_mem l hx)
    cases h : acc l.tokenId <;>
      simp [scanListings, hrun k, hl, ih (k + 1) hrun hrest, List.filter_cons, h, mkNotif]

/-- Once a listing exceeds the ceiling, the scan of the whole batch equals
the scan of the strict prefix before it. -/
theorem scanListings_stops_at_exceed (w : ℕ → Bool) (maxPrice floorPrice : ℚ)
    (acc : String → Bool) (l : Listing) (post : List Listing)
    (hl : maxPrice < l.priceAmount) :
    ∀ (pre : List Listing) (k : ℕ), (∀ n, w n = true) →
      (∀ x ∈ pre, x.priceAmount ≤ maxPrice) →
      scanListings w k maxPrice floorPrice acc (pre ++ l :: post) =
        scanListings w k maxPrice floorPrice acc pre := by
  intro pre
  induction pre with
  | nil =>
    intro k hrun _
    simp [scanListings, hrun k, not_le.mpr hl]
  | cons x pre' ih =>
    intro k hrun hall
    have hx : x.priceAmount ≤ maxPrice := hall x (List.mem_cons_self x pre')
    have hpre' : ∀ y ∈ pre', y.priceAmount ≤ maxPrice :=
      fun y hy => hall y (List.mem_cons_of_mem x hy)
    simp [scanListings, hrun k, hx, ih (k + 1) hrun hpre']

/-- Claim C2: in a poll-cycle scan of a batch whose prefix is within the
ceiling, the first listing whose price exceeds the ceiling stops the scan:
the scan equals the scan of the prefix, the trait predicate is evaluated
exactly on the prefix's tokens, and the notifications are exactly the trait
matches of the prefix — none for the exceeding listing nor for any later
listing of the batch. -/
theorem scan_early_exit (w : ℕ → Bool) (k : ℕ) (maxPrice floorPrice : ℚ)
    (acc : String → Bool) (pre post : List Listing) (l : Listing)
    (hrun : ∀ n, w n = true)
    (hpre : ∀ x ∈ pre, x.priceAmount ≤ maxPrice)
    (hl : maxPrice < l.priceAmount) :
    scanListings w k maxPrice floorPrice acc (pre ++ l :: post) =
        scanListings w k maxPrice floorPrice acc pre
    ∧ (scanListings w k maxPrice floorPrice acc (pre ++ l :: post)).queries =
        pre.map (fun x => x.tokenId)
    ∧ (scanListings w k maxPrice floorPrice acc (pre ++ l :: post)).notifs =
        (pre.filter (fun x => acc x.tokenId)).map (mkNotif floorPrice) := by
  have hmain := scanListings_stops_at_exceed w maxPrice floorPrice acc l post hl pre k hrun hpre
  have hfull := scanListings_all_le w maxPrice floorPrice acc pre k hrun hpre
  refine ⟨hmain, ?_, ?_⟩ <;> rw [hmain, hfull]

/-- Witness for C2, the spec's scenario shape: ceiling 2, prefix within the
ceiling, then a listing priced 3 that breaks the scan before the trait
predicate sees it or the listing after it. -/
theorem scan_early_exit_witness :
    (∀ x ∈ [(⟨"a", 1, "", ""⟩ : Listing)], x.priceAmount ≤ (2 : ℚ))
    ∧ (2 : ℚ) < 3
    ∧ scanListings (fun _ => true) 0 2 1 (fun _ => true)
        ([⟨"a", 1, "", ""⟩] ++ (⟨"c", 3, "", ""⟩ : Listing) :: [⟨"d", 4, "", ""⟩]) =
      scanListings (fun _ => true) 0 2 1 (fun _ => true) [⟨"a", 1, "", ""⟩] :=
  ⟨by rw [List.forall_mem_singleton]; norm_num, by norm_num,
    (scan_early_exit (fun _ => true) 0 2 1 (fun _ => true)
      [⟨"a", 1, "", ""⟩] [⟨"d", 4, "", ""⟩] ⟨"c", 3, "", ""⟩
      (fun _ => rfl) (by rw [List.forall_mem_singleton]; norm_num) (by norm_num)).1⟩

/-- On an ascending-sorted batch the scan's notifications are exactly one
`mkNotif` per listing that is within the ceiling and has the trait. -/
theorem scanListings_sorted_notifs (w : ℕ → Bool) (maxPrice floorPrice : ℚ)
    (acc : String → Bool) :
    ∀ (xs : List Listing) (k : ℕ), (∀ n, w n = true) →
      xs.Pairwise (fun a b => a.priceAmount ≤ b.priceAmount) →
      (scanListings w k maxPrice floorPrice acc xs).notifs =
        (xs.filter (fun l => decide (l.priceAmount ≤ maxPrice) && acc l.tokenId)).map
          (mkNotif floorPrice) := by
  intro xs
  induction xs with
  | nil => intro k _ _; rfl
  | cons l rest ih =>
    intro k hrun hsorted
    rw [List.pairwise_cons] at hsorted
    obtain ⟨hle, hrest⟩ := hsorted
    simp only [scanListings, hrun k]
    by_cases h : l.priceAmount ≤ maxPrice
    · rw [if_pos h]
      simp only [List.filter_cons, decide_eq_true h, Bool.true_and]
      cases ha : acc l.tokenId
      · simpa using ih (k + 1) hrun hrest
      · simp only [List.map_cons]
        simpa [mkNotif] using ih (k + 1) hrun hrest
    · rw [if_neg h]
      have hnone : (l :: rest).filter
          (fun x => decide (x.priceAmount ≤ maxPrice) && acc x.tokenId) = [] := by
        rw [List.filter_eq_nil_iff]
        intro x hx
        rcases List.mem_cons.mp hx with rfl | hx'
        · simp [h]
        · have : ¬ x.priceAmount ≤ maxPrice :=
            fun hc => h (le_trans (hle x hx') hc)
          simp [this]
      rw [hnone]
      rfl

/-- Claim C3: in a poll cycle whose floor price was fetched successfully
(nonzero), the notifications sent for an ascending-sorted batch are exactly
one per listing whose price is within the ceiling `fp * mult` and whose
token has the trait, each carrying that listing's token id and price and
the cycle's floor price. -/
theorem poll_iteration_unique_notifications (mult : ℚ) (w : ℕ → Bool)
    (fp : ℚ) (listings : List Listing) (acc : String → Bool)
    (hrun : ∀ n, w n = true) (hfp : fp ≠ 0)
    (hsorted : listings.Pairwise (fun a b => a.priceAmount ≤ b.priceAmount)) :
    (pollIteration mult w (some fp) listings acc).scan.notifs =
      (listings.filter
        (fun l => decide (l.priceAmount ≤ fp * mult) && acc l.tokenId)).map
          (mkNotif fp) := by
  have ht : decimalTruthy (some fp) = true := by simp [decimalTruthy, hfp]
  simp only [pollIteration, ht, if_true, Option.getD_some]
  exact scanListings_sorted_notifs w (fp * mult) fp acc listings 0 hrun hsorted

/-- Witness for C3, the spec's scenario: floor 1, multiplier 11/10, batch
`[(a, 9/10), (b, 21/20), (c, 6/5)]` ascending, only `b` has the trait. -/
theorem poll_iteration_unique_notifications_witness :
    (1 : ℚ) ≠ 0
    ∧ ([⟨"a", 9/10, "", ""⟩, ⟨"b", 21/20, "", ""⟩, ⟨"c", 6/5, "", ""⟩] :
        List Listing).Pairwise (fun a b => a.priceAmount ≤ b.priceAmount)
    ∧ (pollIteration (11/10) (fun _ => true) (some 1)
        [⟨"a", 9/10, "", ""⟩, ⟨"b", 21/20, "", ""⟩, ⟨"c", 6/5, "", ""⟩]
        (fun t => t == "b")).scan.notifs =
      (([⟨"a", 9/10, "", ""⟩, ⟨"b", 21/20, "", ""⟩, ⟨"c", 6/5, "", ""⟩] :
          List Listing).filter
        (fun l => decide (l.priceAmount ≤ 1 * (11/10)) && (l.tokenId == "b"))).map
          (mkNotif 1) :=
  ⟨by norm_num, by norm_num [List.pairwise_cons],
    poll_iteration_unique_notifications (11/10) (fun _ => true) 1
      [⟨"a", 9/10, "", ""⟩, ⟨"b", 21/20, "", ""⟩, ⟨"c", 6/5, "", ""⟩]
      (fun t => t == "b") (fun _ => rfl) (by norm_num)
      (by norm_num [List.pairwise_cons])⟩

/-! ### Run-state invariant -/

/-- `/set_multiplier` never touches the running flag, the task handle or the
cycle count. -/
theorem set_multiplier_run_fields (al : List ℤ) (u : ℤ) (args : List String)
    (st : BotState) :
    (set_multiplier al u args st).state.is_running = st.is_running
    ∧ (set_multiplier al u args st).state.task = st.task
    ∧ (set_multiplier al u args st).state.liveCycles = st.liveCycles := by
  unfold set_multiplier
  split
  · exact ⟨rfl, rfl, rfl⟩
  · split
    · exact ⟨rfl, rfl, rfl⟩
    · split
      · split
        · exact ⟨rfl, rfl, rfl⟩
        · exact ⟨rfl, rfl, rfl⟩
      · split
        · exact ⟨rfl, rfl, rfl⟩
        · exact ⟨rfl, rfl, rfl⟩

/-- `/set_interval` never touches the running flag, the task handle or the
cycle count. -/
theorem set_interval_run_fields (al : List ℤ) (u : ℤ) (args : List String)
    (st : BotState) :
    (set_interval al u args st).state.is_running = st.is_running
    ∧ (set_interval al u args st).state.task = st.task
    ∧ (set_interval al u args st).state.liveCycles = st.liveCycles := by
  unfold set_interval
  split
  · exact ⟨rfl, rfl, rfl⟩
  · split
    · exact ⟨rfl, rfl, rfl⟩
    · split
      · split
        · exact ⟨rfl, rfl, rfl⟩
        · exact ⟨rfl, rfl, rfl⟩
      · split
        · exact ⟨rfl, rfl, rfl⟩
        · exact ⟨rfl, rfl, rfl⟩

/-- The inductive invariant: the running flag tracks the live task handle,
and the number of live poll cycles is 1 when running, 0 when not. -/
abbrev RunInv (st : BotState) : Prop :=
  (st.is_running = true ↔ st.task = TaskState.live)
  ∧ st.liveCycles = (if st.is_running then 1 else 0)

theorem startMonitor_inv (st : BotState) (h : RunInv st) :
    RunInv (startMonitor st).1 := by
  obtain ⟨h1, h2⟩ := h
  unfold startMonitor
  split
  · rename_i hcond
    refine ⟨by simp, ?_⟩
    simp [hcond] at h2
    simp [h2]
  · exact ⟨h1, h2⟩

theorem stopMonitor_inv (st : BotState) (h : RunInv st) :
    RunInv (stopMonitor st).1 := by
  obtain ⟨h1, h2⟩ := h
  unfold stopMonitor
  split
  · rename_i hcond
    refine ⟨by simp, ?_⟩
    simp [hcond.1] at h2
    simp [h2]
  · exact ⟨h1, h2⟩

theorem buttonHandler_inv (u : ℤ) (al : List ℤ) (d : String) (fr : Option ℚ)
    (st : BotState) (h : RunInv st) :
    RunInv (buttonHandler u al d st fr).1 := by
  unfold buttonHandler
  split
  · exact startMonitor_inv st h
  · split
    · exact stopMonitor_inv st h
    · split
      · exact h
      · split
        · exact h
        · exact h

theorem reachable_runInv (st : BotState) (h : Reachable st) : RunInv st := by
  induction h with
  | init m i => exact ⟨by simp, by simp⟩
  | button st u al d fr _ ih => exact buttonHandler_inv u al d fr st ih
  | setMult st al u args _ ih =>
    obtain ⟨h1, h2, h3⟩ := set_multiplier_run_fields al u args st
    exact ⟨by rw [h1, h2]; exact ih.1, by rw [h3, h1]; exact ih.2⟩
  | setInt st al u args _ ih =>
    obtain ⟨h1, h2, h3⟩ := set_interval_run_fields al u args st
    exact ⟨by rw [h1, h2]; exact ih.1, by rw [h3, h1]; exact ih.2⟩

/-- Claim C7: in every reachable state, `start_monitor` while running reports
"already running" and changes nothing (no second cycle is created),
`stop_monitor` while not running reports "not running" and changes nothing
(no cancellation), the running flag holds exactly when the task handle is
live, and at most one poll cycle is live. -/
theorem run_state_invariant (st : BotState) (h : Reachable st) :
    (st.is_running = true → startMonitor st = (st, Resp.alreadyRunning))
    ∧ (st.is_running = false → stopMonitor st = (st, Resp.notRunning))
    ∧ (st.is_running = true ↔ st.task = TaskState.live)
    ∧ st.liveCycles ≤ 1 := by
  obtain ⟨h1, h2⟩ := reachable_runInv st h
  refine ⟨?_, ?_, h1, ?_⟩
  · intro hr
    unfold startMonitor
    rw [hr]
    simp
  · intro hr
    unfold stopMonitor
    rw [hr]
    simp
  · rw [h2]
    split <;> omega

/-- Witness for C7 at the reachable state just after a successful
`start_monitor`: a second `start_monitor` reports "already running" and
leaves the state — including the live-cycle count — untouched. -/
theorem run_state_invariant_witness :
    startMonitor ⟨true, TaskState.live, 1, 1, 60⟩ =
      (⟨true, TaskState.live, 1, 1, 60⟩, Resp.alreadyRunning) := by
  have hreach : Reachable ⟨true, TaskState.live, 1, 1, 60⟩ := by
    have h := Reachable.button ⟨false, TaskState.noTask, 0, 1, 60⟩ 1 []
      "start_monitor" none (Reachable.init 1 60)
    simpa [buttonHandler, startMonitor] using h
  exact (run_state_invariant _ hreach).1 rfl

/-! ### Authorization behaviour of the handlers -/

/-- Counterexample to claim C1: user 999 is not on the allow-list `[111]`,
yet their `start_monitor` button press flips the running flag (and launches
a poll task) — `button_handler` performs no allow-list check, so the stored
state is changed and no rejection is sent. -/
theorem button_handler_no_auth_counterexample :
    ((buttonHandler 999 [111] "start_monitor"
        ⟨false, TaskState.noTask, 0, 1, 60⟩ none).1).is_running = true
    ∧ (⟨false, TaskState.noTask, 0, 1, 60⟩ : BotState).is_running = false
    ∧ (999 : ℤ) ∉ ([111] : List ℤ) := by
  refine ⟨rfl, rfl, ?_⟩
  decide

/-- Claim C1 as amended: only the `/start`, `/set_multiplier`,
`/set_interval` and `/buy_<tokenId>` text commands check the caller against
the allow-list; for an unauthorized caller they leave the state unchanged
and attempt no purchase, but only `/start` sends a rejection response — the
other three return silently.  The button commands (`start_monitor`,
`stop_monitor`, `floor_price`, `settings`) perform no allow-list check at
all: their behaviour is independent of the caller's identity. -/
theorem command_auth_amended (allowed : List ℤ) (u : ℤ) (hu : u ∉ allowed)
    (st : BotState) (args : List String) (text : String)
    (listings : List Listing) (buyRes : Listing → Option String) :
    startCommand allowed u st = (st, [Resp.notAuthorized])
    ∧ set_multiplier allowed u args st = ⟨st, [], none⟩
    ∧ set_interval allowed u args st = ⟨st, [], none⟩
    ∧ buyCommand allowed u text listings buyRes st = (⟨st, [], none⟩, [])
    ∧ ∀ (u' : ℤ) (al' : List ℤ) (d : String) (fr : Option ℚ),
        buttonHandler u allowed d st fr = buttonHandler u' al' d st fr := by
  refine ⟨?_, ?_, ?_, ?_, fun u' al' d fr => rfl⟩
  · unfold startCommand
    rw [if_pos hu]
  · unfold set_multiplier
    rw [if_pos hu]
  · unfold set_interval
    rw [if_pos hu]
  · unfold buyCommand
    rw [if_pos hu]

/-- Witness for the amended C1: the spec's scenario — unauthorized caller
999 issues `set_interval 100`; the stored interval stays 60 and (unlike the
claim's expectation of a rejection message) the reply list is empty. -/
theorem command_auth_amended_witness :
    (999 : ℤ) ∉ ([111] : List ℤ)
    ∧ set_interval [111] 999 ["100"] ⟨false, TaskState.noTask, 0, 1, 60⟩ =
        ⟨⟨false, TaskState.noTask, 0, 1, 60⟩, [], none⟩ :=
  ⟨by decide,
    (command_auth_amended [111] 999 (by decide) ⟨false, TaskState.noTask, 0, 1, 60⟩
      ["100"] "" [] (fun _ => none)).2.2.1⟩

/-- Claim C5's failing input, `/set_multiplier abc` from an authorized
caller: `Decimal('abc')` raises `decimal.InvalidOperation`, which
`except (IndexError, ValueError)` does not catch — the exception escapes
the handler, so no validation-error response is sent (the state is at least
left unchanged). -/
theorem set_multiplier_nonnumeric_uncaught :
    set_multiplier [111] 111 ["abc"] ⟨false, TaskState.noTask, 0, 1, 60⟩ =
      ⟨⟨false, TaskState.noTask, 0, 1, 60⟩, [], some PyExc.invalidOperation⟩ := by
  rfl

/-- Claim C6: for an authorized caller, `/set_interval` rejects an
out-of-range integer (`< 30` or `> 3600`) with a range message and no
mutation, rejects a malformed or missing argument with a parse-error
message and no mutation, and on an in-range integer stores it and echoes
the new value. -/
theorem set_interval_validation (allowed : List ℤ) (u : ℤ) (st : BotState)
    (hu : u ∈ allowed) :
    (∀ (a : String) (s : ℤ), pyInt a = .ok s → (s < 30 ∨ s > 3600) →
        set_interval allowed u [a] st = ⟨st, [Resp.intervalRange], none⟩)
    ∧ (∀ (a : String) (e : PyExc), pyInt a = .error e →
        set_interval allowed u [a] st = ⟨st, [Resp.intervalParseError], none⟩)
    ∧ (∀ (a : String) (s : ℤ), pyInt a = .ok s → 30 ≤ s → s ≤ 3600 →
        set_interval allowed u [a] st =
          ⟨{st with check_interval := s}, [Resp.intervalSet s], none⟩)
    ∧ set_interval allowed u [] st = ⟨st, [Resp.intervalParseError], none⟩ := by
  have hu' : ¬ u ∉ allowed := not_not_intro hu
  refine ⟨?_, ?_, ?_, ?_⟩
  · intro a s hok hrange
    unfold set_interval
    rw [if_neg hu']
    simp only [List.head?_cons, hok]
    rw [if_pos hrange]
  · intro a e herr
    have he : e = PyExc.valueError := by
      unfold pyInt at herr
      cases hn : readNat (stripSign a.toList).2 <;> rw [hn] at herr
      · exact ((Except.error.injEq _ _).mp herr).symm
      · exact absurd herr (by simp)
    unfold set_interval
    rw [if_neg hu']
    simp only [List.head?_cons, herr, he]
    rfl
  · intro a s hok h30 h3600
    unfold set_interval
    rw [if_neg hu']
    simp only [List.head?_cons, hok]
    rw [if_neg (by omega : ¬ (s < 30 ∨ s > 3600))]
  · unfold set_interval
    rw [if_neg hu']
    rfl

/-- Witness for C6: authorized caller 111 sets the interval to 100; the
stored interval becomes 100 and the new value is echoed. -/
theorem set_interval_validation_witness :
    (111 : ℤ) ∈ ([111] : List ℤ)
    ∧ pyInt "100" = .ok 100
    ∧ (30 : ℤ) ≤ 100 ∧ (100 : ℤ) ≤ 3600
    ∧ set_interval [111] 111 ["100"] ⟨false, TaskState.noTask, 0, 1, 60⟩ =
        ⟨⟨false, TaskState.noTask, 0, 1, 100⟩, [Resp.intervalSet 100], none⟩ :=
  ⟨by decide, rfl, by decide, by decide,
    (set_interval_validation [111] 111 ⟨false, TaskState.noTask, 0, 1, 60⟩
      (by decide)).2.2.1 "100" 100 rfl (by decide) (by decide)⟩

/-! ### Failure absorption in the monitor loop -/

/-- An iteration body that receives no `CancelledError` never exits the
loop, whatever else fails. -/
theorem runBody_not_cancelled (mult : ℚ) (env : IterEnv)
    (h : env.cancelSignal = false) :
    bodyCancelled (runBody mult env) = false := by
  unfold runBody
  rw [h]
  simp only [Bool.false_eq_true, if_false]
  cases env.injectedExc <;> rfl

/-- Claim C8: over any script of iteration environments in which no
cancellation is delivered, the monitor loop completes every iteration
(each followed by its sleep) — a floor-price fetch failure, an empty
listings result, or an injected unexpected exception never terminates it —
and an iteration whose floor fetch failed or whose listings fetch failed
emits no notification. -/
theorem monitor_loop_absorbs_failures (mult : ℚ) (script : List IterEnv)
    (hnc : ∀ env ∈ script, env.cancelSignal = false) :
    (monitorLoop mult script).1 = script.length
    ∧ (∀ env ∈ script, (env.floorResult = none ∨ env.listings = []) →
        bodyNotifs (runBody mult env) = [])
    ∧ (∀ env ∈ script, bodyCancelled (runBody mult env) = false) := by
  refine ⟨?_, ?_, fun env henv => runBody_not_cancelled mult env (hnc env henv)⟩
  · induction script with
    | nil => rfl
    | cons env rest ih =>
      have hc := hnc env (List.mem_cons_self env rest)
      have hrest := fun e he => hnc e (List.mem_cons_of_mem env he)
      simp only [monitorLoop, runBody_not_cancelled mult env hc,
        Bool.false_eq_true, if_false, List.length_cons]
      rw [ih hrest]
  · intro env henv hfail
    have hc := hnc env henv
    unfold runBody
    rw [hc]
    simp only [Bool.false_eq_true, if_false]
    cases hinj : env.injectedExc with
    | some e => rfl
    | none =>
      rcases hfail with hf | hl
      · simp [bodyNotifs, pollIteration, hf, decimalTruthy]
      · simp only [bodyNotifs, pollIteration, hl]
        split
        · rfl
        · rfl

/-- Witness for C8: a two-iteration script — a floor-fetch failure followed
by an iteration raising an unexpected exception — is survived in full. -/
theorem monitor_loop_absorbs_failures_witness :
    (∀ env ∈ [(⟨none, [], fun _ => false, false, none⟩ : IterEnv),
        ⟨some 1, [], fun _ => false, false, some (PyExc.other "boom")⟩],
      env.cancelSignal = false)
    ∧ (monitorLoop 1 [⟨none, [], fun _ => false, false, none⟩,
        ⟨some 1, [], fun _ => false, false, some (PyExc.other "boom")⟩]).1 = 2 := by
  have hnc : ∀ env ∈ [(⟨none, [], fun _ => false, false, none⟩ : IterEnv),
      ⟨some 1, [], fun _ => false, false, some (PyExc.other "boom")⟩],
      env.cancelSignal = false := by
    intro env henv
    rcases List.mem_cons.mp henv with rfl | henv'
    · rfl
    · rcases List.mem_cons.mp henv' with rfl | habs
      · rfl
      · exact absurd habs (List.not_mem_nil env)
  exact ⟨hnc, (monitor_loop_absorbs_failures 1 _ hnc).1⟩

/-- Claim C10: a successfully fetched floor price of exactly 0 is falsy in
Python, so `monitor_listings` treats it like a failed fetch — the iteration
fetches no listings, emits no notification, and the loop sleeps and
retries — and the `floor_price` button reports the could-not-fetch message
instead of a zero floor price. -/
theorem floor_zero_as_failure (mult : ℚ) (w : ℕ → Bool)
    (listings : List Listing) (acc : String → Bool) (st : BotState)
    (u : ℤ) (al : List ℤ) :
    pollIteration mult w (some 0) listings acc =
        pollIteration mult w none listings acc
    ∧ (pollIteration mult w (some 0) listings acc).listingsFetched = false
    ∧ (pollIteration mult w (some 0) listings acc).scan.notifs = []
    ∧ (monitorLoop mult [⟨some 0, listings, acc, false, none⟩]).1 = 1
    ∧ buttonHandler u al "floor_price" st (some 0) =
        (st, [Resp.couldNotFetchFloor]) := by
  refine ⟨rfl, rfl, rfl, rfl, rfl⟩

/-! ### Configuration read points under interference -/

theorem applyW_id (s n : ℕ) (c : ConfigPair) :
    applyW (fun _ c => c) s n c = c := by
  induction n generalizing s c with
  | zero => rfl
  | succ n ih => exact ih (s + 1) c

/-- An interference schedule: a `set_multiplier 2` lands during the
floor-price fetch (await 0) and a `set_interval 100` lands during the
listings fetch (await 1). -/
def cexSchedule : ℕ → ConfigPair → ConfigPair := fun k c =>
  if k = 0 then ⟨2, c.interval⟩
  else if k = 1 then ⟨c.mult, 100⟩
  else c

/-- Counterexample to claim C4: starting the cycle with multiplier 1 and
interval 60, a `set_multiplier 2` landing during the floor-price fetch
changes the current cycle's ceiling (the listing priced 2 is notified,
though under the claimed top-of-cycle snapshot ceiling `1 * 1` it would
not be), and a `set_interval 100` landing mid-cycle changes the current
cycle's sleep from 60 to 100. -/
theorem config_snapshot_counterexample :
    (interferedCycle ⟨1, 60⟩ cexSchedule (some 1) [⟨"7", 2, "", ""⟩]
        (fun _ => true)).notifs = [⟨"7", 2, 1⟩]
    ∧ (pollIteration (1 : ℚ) alwaysRun (some 1) [⟨"7", 2, "", ""⟩]
        (fun _ => true)).scan.notifs = []
    ∧ (interferedCycle ⟨1, 60⟩ cexSchedule (some 1) [⟨"7", 2, "", ""⟩]
        (fun _ => true)).sleepDur = 100
    ∧ (⟨1, 60⟩ : ConfigPair).interval = 60 := by
  refine ⟨?_, ?_, ?_, rfl⟩ <;>
    norm_num [interferedCycle, pollIteration, cexSchedule, scanListings,
      applyW, decimalTruthy, alwaysRun, mkNotif]

/-- Claim C4 as amended: the cycle's ceiling — hence its notifications —
is fixed by the multiplier value at the moment the floor-price fetch
returns (`w 0 c0`), so a `set_multiplier` landing later in the cycle has no
effect on that cycle and becomes visible from the next cycle; the poll
interval, however, is read when the end-of-cycle sleep begins, so with no
concurrent update the sleep uses the interval from cycle start, while an
update landing before the sleep (see the counterexample) changes the
current cycle's sleep. -/
theorem config_read_points_amended (c0 : ConfigPair)
    (w : ℕ → ConfigPair → ConfigPair) (fr : Option ℚ)
    (listings : List Listing) (acc : String → Bool) :
    (interferedCycle c0 w fr listings acc).notifs =
      (pollIteration (w 0 c0).mult alwaysRun fr listings acc).scan.notifs
    ∧ (interferedCycle c0 (fun _ c => c) fr listings acc).sleepDur =
      c0.interval := by
  constructor
  · unfold interferedCycle pollIteration
    split
    · rfl
    · rfl
  · unfold interferedCycle
    split
    · simp only [applyW_id]
    · rfl

/-! ### Startup configuration validation -/

/-- Claim C9 evaluated at its failing input (every required variable
missing): process startup aborts with the entry-module parse failure — not
with the enumerated list of the five missing names that `Config.validate`
was written to produce.  The parse failure precedes the import of
`config.py`, so the enumerated report is unreachable in every environment
(and even with the literal repaired, a missing `ALLOWED_USERS` would crash
the class body before `validate` could run). -/
theorem startup_parse_failure_at_failing_input :
    startup (fun _ => none) = ProcessStart.syntaxError
    ∧ startup (fun _ => none) ≠ ProcessStart.validationError
        ["OPENSEA_API_KEY", "ETH_PRIVATE_KEY", "ETHEREUM_RPC_URL",
         "TELEGRAM_TOKEN", "ALLOWED_USERS"] := by
  refine ⟨rfl, ?_⟩
  intro h
  exact ProcessStart.noConfusion (rfl.symm.trans h)

end Sniper
